import Mathlib

/-!
# Verification of the fast-ticket contended-acquisition subsystem

Shallow embedding of the core data model and operations of the
`fast-ticket` railway booking program (Python), together with theorems
settling the specification claims about it.

Conventions of the embedding:
* Python lists become `List`, `None`/raised exceptions become
  `Option`/`Except`.
* `random.choice(l)` (a uniform pick from a non-empty list, raising
  `IndexError` on an empty one) is modelled by an arbitrary pick index
  reduced modulo the list length; quantifying over the index covers every
  outcome the randomness can produce.
* Python float fields that no claim touches are modelled as `Rat`.
* Stateful concurrent code (the reservation race) is modelled by an
  explicit small-step scheduler over worker program counters.
-/

namespace FastTicket

/-! ## Data model (src/models.py) -/

/-- `models.Seat` (src/models.py). -/
structure Seat where
  seat_number : String
  ticket_id : Int
  is_available : Bool
  is_hidden : Bool
  ticket_type : Int
deriving Repr, DecidableEq

/-- `Seat.is_aisle`: a seat is an aisle placeholder iff its number is empty. -/
def Seat.is_aisle (s : Seat) : Bool :=
  s.seat_number = ""

/-- `models.Floor` (src/models.py): rows of seats plus an availability flag. -/
structure Floor where
  floor_number : Int
  seats : List (List Seat)
  floor_name : String
  seat_availability : Bool
deriving Repr, DecidableEq

/-- The per-row filter in `Floor.find_adjacent_seats_pairs`: the code first
collects every seat of the row that is neither an aisle nor unavailable. -/
def availableInRow (row : List Seat) : List Seat :=
  row.filter (fun s => !s.is_aisle && s.is_available)

/-- Number of windows produced by Python's
`range(len(available_seats) - adjacency + 1)`, with the subtraction done in
ℤ as in Python (empty range when `len - adjacency + 1 ≤ 0`). -/
def numWindows (len k : Nat) : Nat :=
  if k ≤ len then len - k + 1 else 0

/-- The sliding windows `available_seats[i : i + adjacency]` yielded by
`Floor.find_adjacent_seats_pairs` for one row, in order of `i`. -/
def slidingWindows (k : Nat) (l : List Seat) : List (List Seat) :=
  (List.range (numWindows l.length k)).map (fun i => (l.drop i).take k)

/-- `Floor.find_adjacent_seats_pairs` (src/models.py lines 88–109): for each
row in order, filter to the available non-aisle seats and yield each window
of `adjacency` consecutive elements of the filtered list. -/
def Floor.find_adjacent_seats_pairs (f : Floor) (adjacency : Nat) : List (List Seat) :=
  f.seats.flatMap (fun row => slidingWindows adjacency (availableInRow row))

/-- `models.SeatLayout` (src/models.py). -/
structure SeatLayout where
  trip_id : Int
  trip_route_id : Int
  floors : List Floor
deriving Repr, DecidableEq

/-- `SeatLayout.available_floors`: the floors whose availability flag is set. -/
def SeatLayout.available_floors (sl : SeatLayout) : List Floor :=
  sl.floors.filter (fun f => f.seat_availability)

/-- Model of Python's `random.choice`: an arbitrary pick index reduced
modulo the list length; `none` exactly when the list is empty (the
`IndexError` case). -/
def pickUniform {α : Type} (l : List α) (i : Nat) : Option α :=
  l.get? (i % l.length)

/-- `SeatLayout.find_random_adjacent_seats` (src/models.py lines 158–165):
pick a random available floor, then a random window among that floor's
`find_adjacent_seats_pairs`; on `IndexError` (empty choice) return `[]`.
The two pick indices stand for the two `random.choice` draws. -/
def SeatLayout.find_random_adjacent_seats (sl : SeatLayout) (adjacency : Nat)
    (floorPick pairPick : Nat) : List Seat :=
  match pickUniform sl.available_floors floorPick with
  | none => []
  | some fl =>
    match pickUniform (fl.find_adjacent_seats_pairs adjacency) pairPick with
    | none => []
    | some grp => grp

/-- Whether a row contains a contiguous run of `k` seats that are all
available and non-aisle (stated as the spec words it: no gap, no aisle,
no unavailable seat inside the window). -/
def hasAvailRun (row : List Seat) (k : Nat) : Bool :=
  (List.range (row.length + 1)).any (fun i =>
    ((row.drop i).take k).length = k &&
      ((row.drop i).take k).all (fun s => !s.is_aisle && s.is_available))

/-- `models.BoardingPoint` (src/models.py). -/
structure BoardingPoint where
  id : Int
  name : String
  time : String
  date : String
deriving Repr, DecidableEq

instance : Inhabited BoardingPoint := ⟨⟨0, "", "", ""⟩⟩

/-- `models.Trip` (src/models.py). -/
structure Trip where
  train_name : String
  departure_time : String
  arrival_time : String
  travel_time : String
  trip_id : Int
  trip_route_id : Int
  route_id : Int
  fare : Rat
  vat_amount : Rat
  total_fare : Rat
  boarding_points : List BoardingPoint
deriving Repr, DecidableEq

/-- Python's `str.lower()`, modelled over the character list of the
string. -/
def pyLower (s : String) : String :=
  ⟨s.data.map Char.toLower⟩

/-- Python's `str.startswith(pre)`, modelled as list-prefix on the
characters. -/
def pyStartsWith (s pre : String) : Bool :=
  pre.data.isPrefixOf s.data

/-- The generator predicate of `Trip.find_boarding_point`:
`bp.name.lower().startswith(from_city.lower())`. -/
def boardingPointMatches (from_city : String) (bp : BoardingPoint) : Bool :=
  pyStartsWith (pyLower bp.name) (pyLower from_city)

/-- `Trip.find_boarding_point` (src/models.py lines 38–48): first boarding
point whose name starts (case-insensitively) with the city; otherwise the
first boarding point of the list (`self.boarding_points[0]`, an
`IndexError` when the list is empty, modelled as `Except.error`). -/
def Trip.find_boarding_point (t : Trip) (from_city : String) :
    Except String BoardingPoint :=
  match t.boarding_points.find? (boardingPointMatches from_city) with
  | some bp => Except.ok bp
  | none =>
    match t.boarding_points with
    | [] => Except.error "IndexError: list index out of range"
    | bp :: _ => Except.ok bp

/-- `models.Passenger` (src/models.py). -/
structure Passenger where
  name : String
  email : String
  mobile : String
  gender : String
  passenger_type : String
deriving Repr, DecidableEq

/-- `models.ApiResponse` (src/models.py), restricted to the projections of
`data` that the embedded code inspects: whether `data` is a dict and the
lowercased string of `data["error"]["messages"]`. -/
structure ApiResponse where
  success : Bool
  status_code : Option Nat
  error_message : Option String
  data_is_dict : Bool
  messages_str : String
deriving Repr, DecidableEq

/-! ## Seat service (src/business/seat_service.py) -/

/-- The exception payload of `RailwaySeatService.reserve_seats`
(src/business/seat_service.py lines 25–62): given the per-seat claim
responses, `none` when every claim succeeded (the method returns `True`),
otherwise `some` of the response the raised `ReservationFailedException`
carries — which the code takes from `responses[0]`, the first response
overall. -/
def reserve_seats_raised (responses : List ApiResponse) : Option ApiResponse :=
  if responses.all (fun r => r.success) then none else responses.head?

/-- The spec's words for the carried reason: the response of the *first
failing* seat claim.  Stated separately so it can be compared with
`reserve_seats_raised`. -/
def firstFailingResponse (responses : List ApiResponse) : Option ApiResponse :=
  responses.find? (fun r => !r.success)

/-! ## Worker attempt (src/application/booking_worker.py,
src/application/seat_reservation_controller.py,
src/business/trip_repository.py) -/

/-- The exception taxonomy raised inside one worker attempt
(src/business/exception.py). -/
inductive WorkerExc where
  | seatAlreadyReserved
  | unauthorized
  | orderLimitExceeded
  | multipleOrderAttempt
  | reservationFailed (r : ApiResponse)
  | generic (msg : String)
deriving Repr, DecidableEq

/-- Substring test used for Python's `"pat" in messages_str`. -/
def strContains (s pat : String) : Bool :=
  2 ≤ (s.splitOn pat).length

/-- `RailwayTripRepository.get_seat_layout` (src/business/trip_repository.py
lines 77–121), classification of the fetch response: 401/403 raise
`UnauthorizedException`; otherwise line 103 reads
`response.data.get("error", ...)`, which raises `AttributeError` when
`data` is not a dict (e.g. a timeout response with `data=None`); 422 with
the matching message raises the order-limit / multiple-order exceptions;
anything else raises a generic `Exception`.  `parsed` is the layout the
successful branch parses out of the response. -/
def get_seat_layout_result (resp : ApiResponse) (parsed : SeatLayout) :
    Except WorkerExc SeatLayout :=
  if resp.success then Except.ok parsed
  else if resp.status_code == some 401 || resp.status_code == some 403 then
    Except.error WorkerExc.unauthorized
  else if !resp.data_is_dict then
    Except.error (WorkerExc.generic "AttributeError: data is not a dict")
  else if resp.status_code == some 422 && strContains resp.messages_str "orderlimitexceeded" then
    Except.error WorkerExc.orderLimitExceeded
  else if resp.status_code == some 422 && strContains resp.messages_str "multiple order attempt" then
    Except.error WorkerExc.multipleOrderAttempt
  else
    Except.error (WorkerExc.generic "Failed to get seat layout")

/-- The record a winning worker puts into the orchestrator's result queue
(src/application/booking_worker.py lines 62–70). -/
structure PutRecord where
  ticket_ids : List Int
  selected_seats : List Seat
  passengers : List Passenger
deriving Repr, DecidableEq

/-- One run of `process_booking` in `booking_worker`
(src/application/booking_worker.py lines 33–73), composed with
`SeatReservationController.find_seat_layout_and_passengers` and
`SeatReservationController.reserve_seats`
(src/application/seat_reservation_controller.py).  Returns the attempt's
outcome (`Except.error` = the raised exception; `Except.ok none` = returned
without enqueuing a result, the "no seats found" path; `Except.ok (some r)`
= enqueued `r`) paired with the number of network calls made (one seat-map
fetch plus one claim call per selected seat).

Environment parameters stand for the remote service and the shared race
state: `is_reserved_start` is the shared flag at the fast-path check,
`layoutResp`/`parsed` the seat-map fetch response, `is_reserved_double` the
flag at the double-check inside `reserve_seats` (whose
`with self._reservation_lock` is commented out in the source), and
`claimResp` the remote response to each seat-claim call. -/
def process_booking (is_reserved_start : Bool) (layoutResp : ApiResponse)
    (parsed : SeatLayout) (passengers : List Passenger)
    (is_reserved_double : Bool) (claimResp : Seat → ApiResponse)
    (floorPick pairPick : Nat) : Except WorkerExc (Option PutRecord) × Nat :=
  if is_reserved_start then (Except.error WorkerExc.seatAlreadyReserved, 0)
  else
    match get_seat_layout_result layoutResp parsed with
    | Except.error e => (Except.error e, 1)
    | Except.ok layout =>
      let selected := layout.find_random_adjacent_seats passengers.length floorPick pairPick
      if selected.length = 0 then (Except.ok none, 1)
      else if is_reserved_double then
        -- controller.reserve_seats returns None without claiming; the worker
        -- ignores that return value and still enqueues its record.
        (Except.ok (some ⟨selected.map (fun s => s.ticket_id), selected, passengers⟩), 1)
      else
        match reserve_seats_raised (selected.map claimResp) with
        | some r => (Except.error (WorkerExc.reservationFailed r), 1 + selected.length)
        | none =>
          (Except.ok (some ⟨selected.map (fun s => s.ticket_id), selected, passengers⟩),
            1 + selected.length)

/-- What the worker's outer `while True` loop does with one attempt's
outcome (src/application/booking_worker.py lines 75–90): every `except`
branch calls `sys.exit(0)`; a normal return reaches `time.sleep(0.1)` and
loops again. -/
inductive WorkerAction where
  | exitProcess
  | retryAfterMs (ms : Nat)
deriving Repr, DecidableEq

/-- The dispatch of the worker loop on an attempt outcome: exceptions of
every kind exit the process; only a normal return is retried, after the
fixed `time.sleep(0.1)` pause. -/
def worker_loop_reaction : Except WorkerExc (Option PutRecord) → WorkerAction
  | Except.ok _ => WorkerAction.retryAfterMs 100
  | Except.error _ => WorkerAction.exitProcess

/-! ## The race on the shared claimed flag
(src/application/seat_reservation_controller.py lines 92–124)

In `SeatReservationController.reserve_seats` the guard
`with self._reservation_lock:` (line 111) is commented out, so the read of
`self._is_reserved.value` (line 113) and the write
`self._is_reserved.value = True` (line 123) are two separate atomic steps
with the remote claim call between them.  The small-step system below has
one shared flag and two workers, each executing: step 0 = the double-check
read, step 1 = the claim-and-set (reaching line 123 and returning the
reservation data). -/

/-- One worker inside `reserve_seats`: `phase` 0 = about to run the
double-check, 1 = passed the check and about to claim-and-set, 2 = done;
`result` is `some true` when the worker returned reservation data (it
observed the unclaimed state and performed the set), `some false` when the
double-check made it return `None`. -/
structure RaceWorker where
  phase : Nat
  result : Option Bool
deriving Repr, DecidableEq

/-- One atomic step of a worker against the shared flag, as the unguarded
source executes it. -/
def stepWorker (claimed : Bool) (w : RaceWorker) : Bool × RaceWorker :=
  match w.phase with
  | 0 => if claimed then (claimed, ⟨2, some false⟩) else (claimed, ⟨1, none⟩)
  | 1 => (true, ⟨2, some true⟩)
  | _ => (claimed, w)

/-- The two-worker race system: the shared `is_reserved` flag and both
workers' local states. -/
structure RaceSys where
  claimed : Bool
  w1 : RaceWorker
  w2 : RaceWorker
deriving Repr, DecidableEq

/-- Run one scheduler step: `true` steps worker 1, `false` steps worker 2. -/
def stepSys (s : RaceSys) (pick : Bool) : RaceSys :=
  if pick then
    let r := stepWorker s.claimed s.w1
    ⟨r.1, r.2, s.w2⟩
  else
    let r := stepWorker s.claimed s.w2
    ⟨r.1, s.w1, r.2⟩

/-- Run a whole schedule of interleaved steps. -/
def runSched (s : RaceSys) : List Bool → RaceSys
  | [] => s
  | p :: rest => runSched (stepSys s p) rest

/-- The race's initial state: flag unclaimed, both workers at the
double-check (`book_ticket` resets `_is_reserved` to `False` before
spawning the workers). -/
def initRace : RaceSys :=
  ⟨false, ⟨0, none⟩, ⟨0, none⟩⟩

/-- How many of the two workers observed a successful unclaimed-to-claimed
transition (returned reservation data after performing the set). -/
def winners (s : RaceSys) : Nat :=
  (if s.w1.result = some true then 1 else 0) +
    (if s.w2.result = some true then 1 else 0)

/-! ## Result collection (src/application/booking_controller.py
lines 125–246) -/

/-- Outcome of `multiprocessing.Queue.get()` with no timeout: it blocks
forever on an empty queue, otherwise yields the first item. -/
inductive QueueGetOutcome (α : Type) where
  | blocksForever
  | got (r : α)
deriving Repr, DecidableEq

/-- `result_queue.get()` (src/application/booking_controller.py line 179),
applied to the queue contents once every worker process has been joined. -/
def result_queue_get {α : Type} (q : List α) : QueueGetOutcome α :=
  match q with
  | [] => QueueGetOutcome.blocksForever
  | r :: _ => QueueGetOutcome.got r

/-- The result-collection step of `BookingController.book_ticket`: after
joining all workers, the queue holds exactly the records of the workers
that enqueued one, and the controller calls `result_queue.get()` on it. -/
def book_ticket_collect {α : Type} (workerResults : List (Option α)) :
    QueueGetOutcome α :=
  result_queue_get (workerResults.filterMap id)

/-! ## Outer retry loop (src/application/booking_controller.py
lines 429–446, src/config.py line 31) -/

/-- `BookingConfig.max_retry_attempts` default (src/config.py line 31). -/
def max_retry_attempts_default : Nat := 3

/-- The `while attempt < self.config.max_retry_attempts` loop of
`BookingController.__run_with_retry` (lines 429–441): `outcome n` is
whether `book_ticket` succeeds on attempt number `n`.  Returns the final
value of `attempt` and whether the loop broke with a success. -/
def retry_go (outcome : Nat → Bool) (maxA attempt : Nat) : Nat × Bool :=
  if h : attempt < maxA then
    if outcome (attempt + 1) then (attempt + 1, true)
    else retry_go outcome maxA (attempt + 1)
  else (attempt, false)
termination_by maxA - attempt
decreasing_by
  omega

/-- `BookingController.__run_with_retry` from line 429: the loop starting
at `attempt = 0`, followed by the post-loop check
`if attempt >= self.config.max_retry_attempts` that reports the failure
(lines 443–446).  Returns (final attempt count, success, whether the
failure report is emitted). -/
def run_with_retry (outcome : Nat → Bool) (maxA : Nat) : Nat × Bool × Bool :=
  let r := retry_go outcome maxA 0
  (r.1, r.2, decide (maxA ≤ r.1))

/-! ## Booking payload list adjustment (src/business/booking_service.py
lines 196–212) -/

/-- `RailwayBookingService._adjust_list`: pad with the default value when
the list is shorter than the target length, truncate when longer. -/
def adjust_list {α : Type} (items : List α) (target_length : Nat)
    (default_value : α) : List α :=
  if items.length < target_length then
    items ++ List.replicate (target_length - items.length) default_value
  else
    items.take target_length

/-! ## Concrete inputs used by the theorems and witnesses -/

/-- Seat `A1`, available. -/
def seatA1 : Seat := ⟨"A1", 1, true, false, 1⟩

/-- Seat `A2`, available. -/
def seatA2 : Seat := ⟨"A2", 2, true, false, 1⟩

/-- Seat `A3`, unavailable. -/
def seatA3 : Seat := ⟨"A3", 3, false, false, 1⟩

/-- Seat `A4`, available. -/
def seatA4 : Seat := ⟨"A4", 4, true, false, 1⟩

/-- The spec's end-to-end scenario: one floor, one row
`[A1(avail), A2(avail), A3(unavail), A4(avail)]`. -/
def layoutA : SeatLayout :=
  ⟨10, 20, [⟨1, [[seatA1, seatA2, seatA3, seatA4]], "F1", true⟩]⟩

/-- Seat `B1`, available. -/
def seatB1 : Seat := ⟨"B1", 11, true, false, 1⟩

/-- Seat `B2`, unavailable. -/
def seatB2 : Seat := ⟨"B2", 12, false, false, 1⟩

/-- Seat `B3`, available. -/
def seatB3 : Seat := ⟨"B3", 13, true, false, 1⟩

/-- A layout with a single row `[B1(avail), B2(unavail), B3(avail)]`:
no row has a contiguous run of two available seats. -/
def layoutB : SeatLayout :=
  ⟨10, 20, [⟨1, [[seatB1, seatB2, seatB3]], "F1", true⟩]⟩

/-- A successful claim response. -/
def okResp : ApiResponse := ⟨true, some 200, none, true, ""⟩

/-- A failed claim response (seat already reserved remotely). -/
def failResp : ApiResponse := ⟨false, some 422, some "Seat already reserved", true, ""⟩

/-- The response `RailwayApiClient.make_request` builds when the request
raises (src/infrastructure/api_client.py lines 134–135), e.g. an
`asyncio.TimeoutError`: `success=False`, no status code, `data=None`. -/
def timeoutResp : ApiResponse := ⟨false, none, some "TimeoutError", false, ""⟩

/-- A concrete passenger. -/
def paxAlice : Passenger := ⟨"Alice", "a@example.com", "017", "female", "Adult"⟩

/-- A concrete passenger. -/
def paxBob : Passenger := ⟨"Bob", "b@example.com", "018", "male", "Adult"⟩

/-- A boarding point named `Dhaka`. -/
def bpDhaka : BoardingPoint := ⟨1, "Dhaka", "10:00", "2025-01-01"⟩

/-- A trip with the single boarding point `bpDhaka`. -/
def tripEx : Trip :=
  ⟨"T1", "10:00", "16:00", "6h", 10, 20, 30, 0, 0, 0, [bpDhaka]⟩

end FastTicket

namespace FastTicket

/-! ## Helper lemmas -/

/-- `retry_go` never moves the attempt counter past the bound. -/
theorem retry_go_fst_le (outcome : Nat → Bool) (maxA : Nat) :
    ∀ d attempt, maxA - attempt = d → attempt ≤ maxA →
      (retry_go outcome maxA attempt).1 ≤ maxA := by
  intro d
  induction d using Nat.strong_induction_on with
  | _ d ih =>
    intro attempt hd h
    rw [retry_go]
    split
    next hlt =>
      split
      next => exact hlt
      next => exact ih (maxA - (attempt + 1)) (by omega) (attempt + 1) rfl (by omega)
    next => exact h

/-- When no attempt ever succeeds, the loop runs the counter up to the
bound and exits with failure. -/
theorem retry_go_all_false (outcome : Nat → Bool) (maxA : Nat)
    (hall : ∀ i, outcome i = false) :
    ∀ d attempt, maxA - attempt = d → attempt ≤ maxA →
      retry_go outcome maxA attempt = (maxA, false) := by
  intro d
  induction d using Nat.strong_induction_on with
  | _ d ih =>
    intro attempt hd h
    rw [retry_go]
    split
    next hlt =>
      rw [hall (attempt + 1)]
      simp only [Bool.false_eq_true, if_false]
      exact ih (maxA - (attempt + 1)) (by omega) (attempt + 1) rfl (by omega)
    next hge =>
      have : attempt = maxA := by omega
      rw [this]

end FastTicket

namespace FastTicket

/-! ## Claim theorems -/

/-- **C1** (code bug).  The claim states that the arbiter's check of the
shared claimed flag and the subsequent set execute as one atomic critical
section under the reservation lock, so at most one worker ever observes a
successful unclaimed-to-claimed transition.  Because the
`with self._reservation_lock:` at
src/application/seat_reservation_controller.py line 111 is commented out,
the check (line 113) and the set (line 123) are separate steps, and the
interleaving "worker 1 checks, worker 2 checks, worker 1 claims and sets,
worker 2 claims and sets" makes both workers observe the successful
transition: two winners, not at most one. -/
theorem c1_double_claim_interleaving :
    winners (runSched initRace [true, false, true, false]) = 2 ∧
      ¬ winners (runSched initRace [true, false, true, false]) ≤ 1 := by
  constructor
  · rfl
  · decide

/-- **C2** (code bug).  The claim states that every group returned by the
random adjacent-group selection is contiguous in its row's order and that,
for the layout `[A1(avail), A2(avail), A3(unavail), A4(avail)]` with group
size 2, the only returnable group is `(A1, A2)`.  The code filters each row
to its available seats *before* taking windows
(src/models.py lines 99–109), so on that very layout the pick indices
`(0, 1)` make `find_random_adjacent_seats` return `(A2, A4)`, a group that
skips over the unavailable seat `A3`. -/
theorem c2_selection_not_contiguous :
    layoutA.find_random_adjacent_seats 2 0 1 = [seatA2, seatA4] ∧
      [seatA2, seatA4] ≠ [seatA1, seatA2] := by
  constructor
  · rfl
  · decide

/-- **C3** (code bug).  The claim states that when no row contains a
contiguous run of available non-aisle seats of the requested length, the
selection returns empty.  In `layoutB` (`[B1(avail), B2(unavail),
B3(avail)]`) no row has a contiguous available run of length 2, yet the
code returns the non-contiguous group `(B1, B3)`. -/
theorem c3_selection_not_empty_without_run :
    (layoutB.floors.all (fun f => f.seats.all (fun row => !hasAvailRun row 2))) = true ∧
      layoutB.find_random_adjacent_seats 2 0 0 = [seatB1, seatB3] ∧
      [seatB1, seatB3] ≠ ([] : List Seat) := by
  refine ⟨by decide, rfl, by decide⟩

/-- **C4** (code bug).  The claim states that when every worker finishes
without producing a winning result, the orchestrator reports failure rather
than hanging.  `BookingController.book_ticket` calls `result_queue.get()`
(line 179) with no timeout after joining the workers; when no worker
enqueued a record the queue is empty and the call blocks forever — the
`if not reservation_data` failure branch below it is unreachable. -/
theorem c4_collect_blocks_forever :
    book_ticket_collect ([none, none, none, none] : List (Option PutRecord)) =
      QueueGetOutcome.blocksForever := by
  rfl

/-- **C5** (code bug).  The claim states that when any individual seat claim
fails, the terminal failure carries the reason of the *first failing* claim.
`RailwaySeatService.reserve_seats` raises
`ReservationFailedException(responses[0])` (line 58) — the first response
overall.  With a two-seat group whose first claim succeeds and second
fails, the exception carries the successful first response, not the failing
one (the collected `failed_reservations` messages are discarded). -/
theorem c5_exception_carries_wrong_response :
    reserve_seats_raised [okResp, failResp] = some okResp ∧
      firstFailingResponse [okResp, failResp] = some failResp ∧
      okResp ≠ failResp ∧ okResp.success = true := by
  refine ⟨rfl, rfl, by decide, rfl⟩

/-- **C6** (confirmed).  A worker attempt that begins while the shared race
state is already claimed raises `SeatAlreadyReservedException` at the
fast-path check in `find_seat_layout_and_passengers`
(src/application/seat_reservation_controller.py lines 63–68) before the
seat-map fetch, and the attempt makes zero network calls — regardless of
the remote responses, passengers, double-check state or random picks.  The
worker loop treats this exception as having lost the race to another
worker (the spec's `LostToOther`). -/
theorem c6_fast_path_no_network :
    ∀ (layoutResp : ApiResponse) (parsed : SeatLayout)
      (passengers : List Passenger) (dbl : Bool)
      (claimResp : Seat → ApiResponse) (fp pp : Nat),
      process_booking true layoutResp parsed passengers dbl claimResp fp pp =
        (Except.error WorkerExc.seatAlreadyReserved, 0) := by
  intro _ _ _ _ _ _ _
  rfl

/-- **C7** counterexample (corrected).  The claim states that an attempt
failing with a generic or transient remote error (e.g. a network timeout)
is retried after a ~100ms pause.  In the source, a timeout during the
seat-map fetch surfaces as a raised exception, and every `except` branch of
the worker loop (src/application/booking_worker.py lines 78–89) calls
`sys.exit(0)`: the worker stops instead of retrying. -/
theorem c7_generic_error_exits :
    worker_loop_reaction
        (process_booking false timeoutResp ⟨10, 20, []⟩ [paxAlice, paxBob] false
          (fun _ => okResp) 0 0).1 = WorkerAction.exitProcess ∧
      WorkerAction.exitProcess ≠ WorkerAction.retryAfterMs 100 ∧
      (process_booking false timeoutResp ⟨10, 20, []⟩ [paxAlice, paxBob] false
          (fun _ => okResp) 0 0).1 =
        Except.error (WorkerExc.generic "AttributeError: data is not a dict") := by
  refine ⟨rfl, by decide, rfl⟩

/-- **C7** amended (corrected).  What the worker loop actually does: every
raised exception — including generic/transient remote errors — terminates
the worker process; only an attempt that returns normally (such as the
no-seats-found-this-attempt case) is retried, after the fixed
`time.sleep(0.1)` ≈ 100ms pause. -/
theorem c7_amended_loop_dispatch :
    (∀ e : WorkerExc, worker_loop_reaction (Except.error e) = WorkerAction.exitProcess) ∧
      (∀ v : Option PutRecord,
        worker_loop_reaction (Except.ok v) = WorkerAction.retryAfterMs 100) := by
  exact ⟨fun _ => rfl, fun _ => rfl⟩

/-- **C8** (confirmed).  The outer per-trip retry loop of
`BookingController.__run_with_retry` performs at most
`max_retry_attempts` iterations (default 3 in `BookingConfig`), and when
every attempt fails it stops at exactly the bound with `success = false`
and emits the failure report (`if attempt >= max_retry_attempts`). -/
theorem c8_retry_bounded (outcome : Nat → Bool) (maxA : Nat) :
    (run_with_retry outcome maxA).1 ≤ maxA ∧
      max_retry_attempts_default = 3 ∧
      ((∀ i, outcome i = false) → run_with_retry outcome maxA = (maxA, false, true)) := by
  refine ⟨?_, rfl, ?_⟩
  · exact retry_go_fst_le outcome maxA (maxA - 0) 0 rfl (Nat.zero_le _)
  · intro hall
    unfold run_with_retry
    rw [retry_go_all_false outcome maxA hall (maxA - 0) 0 rfl (Nat.zero_le _)]
    simp

/-- Witness for C8: with every attempt failing and the default bound 3, the
loop stops after exactly 3 attempts, without success, and reports the
failure. -/
theorem c8_retry_bounded_witness :
    (run_with_retry (fun _ => false) 3).1 ≤ 3 ∧
      run_with_retry (fun _ => false) 3 = (3, false, true) := by
  have h := c8_retry_bounded (fun _ => false) 3
  exact ⟨h.1, h.2.2 (fun _ => rfl)⟩

/-- **C9** (confirmed).  For a trip with a non-empty boarding-point list,
`Trip.find_boarding_point` never fails: it returns the first boarding point
whose name starts (case-insensitively) with the given city, and falls back
to the first boarding point of the list when none matches. -/
theorem c9_find_boarding_point_total (t : Trip) (city : String)
    (h : t.boarding_points ≠ []) :
    (∀ e, t.find_boarding_point city ≠ Except.error e) ∧
      (∀ bp, t.boarding_points.find? (boardingPointMatches city) = some bp →
        t.find_boarding_point city = Except.ok bp) ∧
      (t.boarding_points.find? (boardingPointMatches city) = none →
        t.find_boarding_point city = Except.ok t.boarding_points.headI) := by
  cases hf : t.boarding_points.find? (boardingPointMatches city) with
  | some bp =>
    have key : t.find_boarding_point city = Except.ok bp := by
      simp [Trip.find_boarding_point, hf]
    refine ⟨fun e => by simp [key], fun bp' hbp' => ?_, fun hn => ?_⟩
    · cases hbp'
      exact key
    · cases hn
  | none =>
    cases hbps : t.boarding_points with
    | nil => exact absurd hbps h
    | cons bp rest =>
      rw [hbps] at hf
      have key : t.find_boarding_point city = Except.ok bp := by
        simp [Trip.find_boarding_point, hbps, hf]
      refine ⟨fun e => by simp [key], fun bp' hbp' => ?_, fun _ => ?_⟩
      · cases hbp'
      · rw [key]
        rfl

/-- Witness for C9: a trip whose single boarding point is `Dhaka`, queried
with the non-matching city `Chittagong`, falls back to the first boarding
point. -/
theorem c9_find_boarding_point_total_witness :
    tripEx.boarding_points ≠ [] ∧
      tripEx.find_boarding_point "Chittagong" =
        Except.ok tripEx.boarding_points.headI := by
  have h : tripEx.boarding_points ≠ [] := by decide
  exact ⟨h, (c9_find_boarding_point_total tripEx "Chittagong" h).2.2 (by decide)⟩

/-- **C10** (confirmed).  `RailwayBookingService._adjust_list` returns a
list of exactly the target length whose first `min(target, input length)`
elements are the corresponding input elements, padded with the default
value when the input is shorter and truncated when it is longer. -/
theorem c10_adjust_list_spec {α : Type} (items : List α) (n : Nat) (d : α) :
    (adjust_list items n d).length = n ∧
      adjust_list items n d = items.take n ++ List.replicate (n - items.length) d ∧
      (∀ i, i < min n items.length → (adjust_list items n d)[i]? = items[i]?) ∧
      (∀ i, min n items.length ≤ i → i < n → (adjust_list items n d)[i]? = some d) := by
  have key : adjust_list items n d
      = items.take n ++ List.replicate (n - items.length) d := by
    unfold adjust_list
    split
    next hlt => rw [List.take_of_length_le (le_of_lt hlt)]
    next hge =>
      have h0 : n - items.length = 0 := by omega
      rw [h0]
      simp
  have hlen : (adjust_list items n d).length = n := by
    rw [key]
    simp only [List.length_append, List.length_take, List.length_replicate]
    omega
  refine ⟨hlen, key, fun i hi => ?_, fun i h1 h2 => ?_⟩
  · rw [key, List.getElem?_append_left (by simp; omega)]
    exact List.getElem?_take_of_lt (by omega)
  · rw [key, List.getElem?_append_right (by simp; omega)]
    rw [List.getElem?_replicate]
    simp only [List.length_take]
    split
    next => rfl
    next hcon =>
      exfalso
      apply hcon
      omega

/-- Witness for C10: input `[1, 2, 3]` adjusted to length 5 with default 0
keeps the input prefix and pads with the default. -/
theorem c10_adjust_list_spec_witness :
    (adjust_list [1, 2, 3] 5 0).length = 5 ∧
      (adjust_list [1, 2, 3] 5 0)[1]? = some 2 ∧
      (adjust_list [1, 2, 3] 5 0)[4]? = some 0 := by
  have h := c10_adjust_list_spec [1, 2, 3] 5 0
  refine ⟨h.1, ?_, h.2.2.2 4 (by decide) (by decide)⟩
  have := h.2.2.1 1 (by decide)
  simpa using this

end FastTicket
